import Mathlib

/-!
Verification of the neverthrow-tutorial repository: a Result-based
(success/failure) error-handling style around a JSON parse-and-validate
pipeline.  The lesson files each define a `jsonParse` wrapper around the
native `JSON.parse`, an optional `checkForId` validator, and a
`handleRequest` that routes the outcome to a `res(status, message)`
callback.

Embedding choices:
  * JavaScript runtime values are the inductive `JSValue` (including
    `undefined`, which property access on objects can produce).
  * Thrown JavaScript errors are `JsError` (kind + message); fallible
    computations live in `Except JsError`.
  * Side effects of the handlers (calls to the `res` callback) are traced
    by the writer-plus-exception monad `JsM`: a computation is its
    outcome together with the ordered list of `res` calls it made.  A
    fatal (thrown) error keeps the calls already made.
  * The native `JSON.parse` and the neverthrow `Result` combinators are
    dependencies of the repository, not code under src/, and are modelled
    here from their documented behavior and the specification.
-/

namespace NT

/-- JavaScript runtime values as produced by JSON parsing and property
access: null, undefined, booleans, (integer) numbers, strings, objects
as ordered field lists, and arrays. -/
inductive JSValue : Type
  | null
  | undefined
  | bool (b : Bool)
  | num (n : Int)
  | str (s : String)
  | obj (fields : List (String × JSValue))
  | arr (elems : List JSValue)
deriving Repr

/-- The runtime classes of thrown JavaScript errors that the tutorial
code distinguishes: `SyntaxError` (thrown by the native JSON parser),
`TypeError` (thrown by property access on null/undefined), and plain
`Error` (constructed by `checkForId`). -/
inductive JsErrorKind : Type
  | syntaxErr
  | typeErr
  | plainErr
deriving Repr, DecidableEq

/-- A thrown JavaScript error: its runtime class and its `.message`. -/
structure JsError : Type where
  kind : JsErrorKind
  message : String
deriving Repr, DecidableEq

/-- JavaScript truthiness, as tested by `if (!data.id)` in `checkForId`:
undefined, null, false, 0 and the empty string are falsy; objects and
arrays are always truthy. -/
def truthy : JSValue → Bool
  | .null => false
  | .undefined => false
  | .bool b => b
  | .num n => n != 0
  | .str s => s != ""
  | .obj _ => true
  | .arr _ => true

/-- JavaScript property access `v[k]`: throws a TypeError on null or
undefined, returns the field (or undefined when absent) on an object,
and undefined on the remaining primitives and arrays (none of which has
the properties the tutorial reads). -/
def getProp : JSValue → String → Except JsError JSValue
  | .null, k =>
    .error ⟨.typeErr, "Cannot read properties of null (reading '" ++ k ++ "')"⟩
  | .undefined, k =>
    .error ⟨.typeErr, "Cannot read properties of undefined (reading '" ++ k ++ "')"⟩
  | .obj fields, k => .ok ((fields.lookup k).getD .undefined)
  | _, _ => .ok .undefined

/-- Internal outcome of a failed parse attempt: the first character of an
unexpected token, or running out of input. -/
inductive ParseErr : Type
  | unexpectedToken (c : Char)
  | unexpectedEnd
deriving Repr, DecidableEq

/-- JSON insignificant whitespace. -/
def isWs (c : Char) : Bool :=
  c = ' ' || c = '\t' || c = '\n' || c = '\x0d'

/-- Drop leading JSON whitespace. -/
def skipWs : List Char → List Char
  | [] => []
  | c :: cs => if isWs c then skipWs cs else c :: cs

/-- Parse the remainder of a JSON string literal after its opening
quote, up to the closing quote (escape sequences are not needed by any
input in the repository and are not modelled). -/
def parseStringChars : List Char → Except ParseErr (String × List Char)
  | [] => .error .unexpectedEnd
  | c :: cs =>
    if c = '\x22' then .ok ("", cs)
    else
      match parseStringChars cs with
      | .ok (s, rest) => .ok (String.mk (c :: s.data), rest)
      | .error e => .error e

/-- Parse a nonempty run of decimal digits. -/
def parseNatLit (cs : List Char) : Except ParseErr (Nat × List Char) :=
  let ds := cs.takeWhile Char.isDigit
  match ds with
  | [] =>
    match cs with
    | c :: _ => .error (.unexpectedToken c)
    | [] => .error .unexpectedEnd
  | _ :: _ =>
    .ok (ds.foldl (fun n c => n * 10 + (c.toNat - 48)) 0, cs.dropWhile Char.isDigit)

mutual

/-- Modelled from the spec: the grammar core of the native `JSON.parse`
("structured-data parsing", §6), whose implementation is the JS runtime
and not part of src/.  Parses one JSON value (fuel-indexed recursion). -/
def parseValue (fuel : Nat) (cs : List Char) : Except ParseErr (JSValue × List Char) :=
  match fuel with
  | 0 => .error .unexpectedEnd
  | fuel + 1 =>
    match skipWs cs with
    | [] => .error .unexpectedEnd
    | '\x7b' :: rest =>
      (match skipWs rest with
       | '\x7d' :: rest2 => .ok (.obj [], rest2)
       | rest2 =>
         match parseMembers fuel rest2 with
         | .error e => .error e
         | .ok (fields, rest3) => .ok (.obj fields, rest3))
    | '[' :: rest =>
      (match skipWs rest with
       | ']' :: rest2 => .ok (.arr [], rest2)
       | rest2 =>
         match parseElements fuel rest2 with
         | .error e => .error e
         | .ok (elems, rest3) => .ok (.arr elems, rest3))
    | '\x22' :: rest =>
      (match parseStringChars rest with
       | .error e => .error e
       | .ok (s, rest2) => .ok (.str s, rest2))
    | 't' :: rest =>
      if rest.take 3 = ['r', 'u', 'e'] then .ok (.bool true, rest.drop 3)
      else .error (.unexpectedToken 't')
    | 'f' :: rest =>
      if rest.take 4 = ['a', 'l', 's', 'e'] then .ok (.bool false, rest.drop 4)
      else .error (.unexpectedToken 'f')
    | 'n' :: rest =>
      if rest.take 3 = ['u', 'l', 'l'] then .ok (.null, rest.drop 3)
      else .error (.unexpectedToken 'n')
    | '-' :: rest =>
      (match parseNatLit rest with
       | .error e => .error e
       | .ok (n, rest2) => .ok (.num (-(n : Int)), rest2))
    | c :: rest =>
      if c.isDigit then
        match parseNatLit (c :: rest) with
        | .error e => .error e
        | .ok (n, rest2) => .ok (.num (n : Int), rest2)
      else .error (.unexpectedToken c)

/-- Object members: `"key": value` pairs separated by commas, ending at
the closing brace. -/
def parseMembers (fuel : Nat) (cs : List Char) : Except ParseErr (List (String × JSValue) × List Char) :=
  match fuel with
  | 0 => .error .unexpectedEnd
  | fuel + 1 =>
    match skipWs cs with
    | '\x22' :: rest =>
      (match parseStringChars rest with
       | .error e => .error e
       | .ok (key, rest2) =>
         match skipWs rest2 with
         | ':' :: rest3 =>
           (match parseValue fuel rest3 with
            | .error e => .error e
            | .ok (v, rest4) =>
              match skipWs rest4 with
              | ',' :: rest5 =>
                (match parseMembers fuel rest5 with
                 | .error e => .error e
                 | .ok (more, rest6) => .ok ((key, v) :: more, rest6))
              | '\x7d' :: rest5 => .ok ([(key, v)], rest5)
              | c :: _ => .error (.unexpectedToken c)
              | [] => .error .unexpectedEnd)
         | c :: _ => .error (.unexpectedToken c)
         | [] => .error .unexpectedEnd)
    | c :: _ => .error (.unexpectedToken c)
    | [] => .error .unexpectedEnd

/-- Array elements: values separated by commas, ending at the closing
square bracket. -/
def parseElements (fuel : Nat) (cs : List Char) : Except ParseErr (List JSValue × List Char) :=
  match fuel with
  | 0 => .error .unexpectedEnd
  | fuel + 1 =>
    match parseValue fuel cs with
    | .error e => .error e
    | .ok (v, rest) =>
      match skipWs rest with
      | ',' :: rest2 =>
        (match parseElements fuel rest2 with
         | .error e => .error e
         | .ok (more, rest3) => .ok (v :: more, rest3))
      | ']' :: rest2 => .ok ([v], rest2)
      | c :: _ => .error (.unexpectedToken c)
      | [] => .error .unexpectedEnd

end

/-- Render a parse failure as the SyntaxError the native parser throws,
with the V8 message format quoted verbatim in the repository's tests,
e.g. `Unexpected token 'i', "invalid json" is not valid JSON`. -/
def renderParseErr (input : String) : ParseErr → JsError
  | .unexpectedToken c =>
    ⟨.syntaxErr, "Unexpected token '" ++ c.toString ++ "', \x22" ++ input ++ "\x22 is not valid JSON"⟩
  | .unexpectedEnd => ⟨.syntaxErr, "Unexpected end of JSON input"⟩

/-- Modelled from the spec: the native `JSON.parse` (§6's fallible
"structured-data parsing" collaborator, implemented by the JS runtime,
not under src/).  Returns the parsed value or throws a SyntaxError. -/
def JSON.parse (input : String) : Except JsError JSValue :=
  match parseValue (input.length + 1) input.data with
  | .error e => .error (renderParseErr input e)
  | .ok (v, rest) =>
    match skipWs rest with
    | [] => .ok v
    | c :: _ => .error (renderParseErr input (.unexpectedToken c))

/-- Modelled from the spec: the neverthrow `Result<T, E>` data model
(§3), a tagged union with exactly two variants; the neverthrow library
source is a dependency, not under src/. -/
inductive Result (T E : Type) : Type
  | ok (value : T)
  | err (error : E)
deriving Repr

/-- Modelled from the spec: `isSuccess` (§4.1), true iff the success
variant is populated. -/
def Result.isOk {T E : Type} : Result T E → Bool
  | .ok _ => true
  | .err _ => false

/-- Modelled from the spec: `isFailure` (§4.1), true iff the failure
variant is populated. -/
def Result.isErr {T E : Type} : Result T E → Bool
  | .ok _ => false
  | .err _ => true

/-- Modelled from the spec: `map` (§4.1) applies `f` to a success
payload and rewraps; a failure passes through untransformed. -/
def Result.map {T T2 E : Type} (r : Result T E) (f : T → T2) : Result T2 E :=
  match r with
  | .ok v => .ok (f v)
  | .err e => .err e

/-- Modelled from the spec: `mapFailure`/`mapErr` (§4.1), the mirror of
`map` on the failure side; a success passes through unchanged. -/
def Result.mapErr {T E E2 : Type} (r : Result T E) (f : E → E2) : Result T E2 :=
  match r with
  | .ok v => .ok v
  | .err e => .err (f e)

/-- Modelled from the spec: `andThen` (§4.1), the sequencing primitive:
on success, returns `f`'s Result directly (flattening); on failure,
short-circuits without invoking `f`. -/
def Result.andThen {T T2 E : Type} (r : Result T E) (f : T → Result T2 E) : Result T2 E :=
  match r with
  | .ok v => f v
  | .err e => .err e

/-- Modelled from the spec: `match` (§4.1), the terminal consumption
form: invokes exactly one of the two callbacks and returns its result. -/
def Result.matchWith {T E R : Type} (r : Result T E) (onOk : T → R) (onErr : E → R) : R :=
  match r with
  | .ok v => onOk v
  | .err e => onErr e

/-- One invocation of the handlers' `res` callback: the status argument
and the message argument (a `JSValue`, because the handlers of lessons
3, 4 and 4.5 pass `result.value.id`, which can be undefined, despite
the declared `(status: number, message: string)` signature). -/
abbrev ResCall := Nat × JSValue

/-- The effect monad of the handlers: an outcome (a value, or a thrown
`JsError` escaping the pipeline) together with the ordered trace of
`res` calls made before that outcome. -/
def JsM (α : Type) : Type := Except JsError α × List ResCall

/-- Return a value with no `res` calls. -/
def JsM.pure {α : Type} (a : α) : JsM α := (.ok a, [])

/-- Sequence two effectful steps; a thrown error skips the continuation
but keeps the calls already made. -/
def JsM.bind {α β : Type} (x : JsM α) (f : α → JsM β) : JsM β :=
  match x with
  | (.error e, cs) => (.error e, cs)
  | (.ok a, cs) =>
    match f a with
    | (r, cs2) => (r, cs ++ cs2)

instance : Monad JsM where
  pure := JsM.pure
  bind := JsM.bind

/-- One call to the `res` callback. -/
def callRes (status : Nat) (msg : JSValue) : JsM Unit := (.ok (), [(status, msg)])

/-- Embed a fallible but `res`-free step. -/
def liftE {α : Type} (x : Except JsError α) : JsM α := (x, [])

/-- `Result.andThen` applied to an effectful (possibly throwing)
callback, as in `.andThen(checkForId)` of lesson 5: the callback runs
only on a success, and a failure passes through with no effect. -/
def Result.andThenM {T T2 E : Type} (r : Result T E) (f : T → JsM (Result T2 E)) : JsM (Result T2 E) :=
  match r with
  | .ok v => f v
  | .err e => JsM.pure (.err e)

/-- `Result.map` applied to an effectful callback, as in the handlers'
`.map((data) => { res(200, data.id) })`: the callback runs only on a
success; its return value (undefined, here `Unit`) is rewrapped. -/
def Result.mapM {T T2 E : Type} (r : Result T E) (f : T → JsM T2) : JsM (Result T2 E) :=
  match r with
  | .ok v => JsM.bind (f v) (fun v2 => JsM.pure (.ok v2))
  | .err e => JsM.pure (.err e)

/-- `Result.mapErr` applied to an effectful callback, as in the
handlers' `.mapErr((err) => { res(400, err.message) })`. -/
def Result.mapErrM {T E E2 : Type} (r : Result T E) (f : E → JsM E2) : JsM (Result T E2) :=
  match r with
  | .ok v => JsM.pure (.ok v)
  | .err e => JsM.bind (f e) (fun e2 => JsM.pure (.err e2))

/-- `Result.matchWith` applied to effectful callbacks, as in lesson
4.5's `jsonParse(req.body).match(onOk, onErr)`. -/
def Result.matchM {T E R : Type} (r : Result T E) (onOk : T → JsM R) (onErr : E → JsM R) : JsM R :=
  match r with
  | .ok v => onOk v
  | .err e => onErr e

/-- The try/catch body of `jsonParse`, abstracted over the outcome of
the `JSON.parse` attempt: a parsed value is wrapped in `ok`; a thrown
SyntaxError is caught and wrapped in `err`; any other thrown error is
re-thrown (001-ok-and-err.solution.1.ts lines 22-37, identical in every
lesson). -/
def jsonParseCore (attempt : Except JsError JSValue) : Except JsError (Result JSValue JsError) :=
  match attempt with
  | .ok v => .ok (.ok v)
  | .error e => if e.kind = .syntaxErr then .ok (.err e) else .error e

/-- `jsonParse` as defined in every lesson file: try `JSON.parse`, catch
a SyntaxError into a failure Result, re-throw anything else. -/
def jsonParse (input : String) : Except JsError (Result JSValue JsError) :=
  jsonParseCore (JSON.parse input)

/-- `checkForId` (005-and-then.solution.ts lines 34-40, same in lesson
6): if `!data.id` — a property access that throws a TypeError when
`data` is null or undefined — return `err(new Error("No id found"))`,
else `ok(data)`. -/
def checkForId (data : JSValue) : Except JsError (Result JSValue JsError) :=
  match getProp data "id" with
  | .error e => .error e
  | .ok idv =>
    if !truthy idv then .ok (.err ⟨.plainErr, "No id found"⟩)
    else .ok (.ok data)

/-- `handleRequest` of src/unnamed/part_001 (lesson 3, isOk-first): on
success, `res(200, result.value.id)`; otherwise `res(400,
result.error.message)`. -/
def handleRequest003 (body : String) : JsM Unit :=
  JsM.bind (liftE (jsonParse body)) (fun r =>
    match r with
    | .ok v =>
      JsM.bind (liftE (getProp v "id")) (fun idv => callRes 200 idv)
    | .err e => callRes 400 (.str e.message))

/-- `handleRequest` of 003-handling-ok-and-err.solution.2.ts (isErr
first, early-return pattern); the two branches are the same as the
isOk-first variant's. -/
def handleRequest003v2 (body : String) : JsM Unit :=
  JsM.bind (liftE (jsonParse body)) (fun r =>
    match r with
    | .err e => callRes 400 (.str e.message)
    | .ok v =>
      JsM.bind (liftE (getProp v "id")) (fun idv => callRes 200 idv))

/-- `handleRequest` of 004-map-and-map-err.solution.ts:
`jsonParse(req.body).map((data) => { res(200, data.id) }).mapErr((err)
=> { res(400, err.message) })`. -/
def handleRequest004 (body : String) : JsM Unit :=
  JsM.bind (liftE (jsonParse body)) (fun r =>
    JsM.bind
      (Result.mapM r (fun data =>
        JsM.bind (liftE (getProp data "id")) (fun idv => callRes 200 idv)))
      (fun r2 =>
        JsM.bind (Result.mapErrM r2 (fun e => callRes 400 (.str e.message)))
          (fun _ => JsM.pure ())))

/-- `handleRequest` of 004.5-match.explainer.ts:
`jsonParse(req.body).match(onOk, onErr)`. -/
def handleRequest0045 (body : String) : JsM Unit :=
  JsM.bind (liftE (jsonParse body)) (fun r =>
    Result.matchM r
      (fun data =>
        JsM.bind (liftE (getProp data "id")) (fun idv => callRes 200 idv))
      (fun e => callRes 400 (.str e.message)))

/-- `handleRequest` of 005-and-then.solution.ts:
`jsonParse(req.body).andThen(checkForId).map((data) => { res(200,
data.id) }).mapErr((err) => { res(400, err.message) })`. -/
def handleRequest005 (body : String) : JsM Unit :=
  JsM.bind (liftE (jsonParse body)) (fun r =>
    JsM.bind (Result.andThenM r (fun data => liftE (checkForId data))) (fun r2 =>
      JsM.bind
        (Result.mapM r2 (fun data =>
          JsM.bind (liftE (getProp data "id")) (fun idv => callRes 200 idv)))
        (fun r3 =>
          JsM.bind (Result.mapErrM r3 (fun e => callRes 400 (.str e.message)))
            (fun _ => JsM.pure ()))))

/-- Both parse-failure renderings are SyntaxErrors, as the native
parser throws nothing else. -/
theorem renderParseErr_kind (input : String) (pe : ParseErr) :
    (renderParseErr input pe).kind = .syntaxErr := by
  cases pe <;> rfl

/-- Every error thrown by the modelled `JSON.parse` is a SyntaxError. -/
theorem JSON.parse_err_kind (input : String) (e : JsError)
    (h : JSON.parse input = .error e) : e.kind = .syntaxErr := by
  rw [JSON.parse] at h
  cases h1 : parseValue (input.length + 1) input.data with
  | error pe =>
    rw [h1] at h
    simp only [Except.error.injEq] at h
    rw [← h]
    exact renderParseErr_kind input pe
  | ok p =>
    obtain ⟨v, rest⟩ := p
    rw [h1] at h
    cases h2 : skipWs rest with
    | nil =>
      simp only [h2] at h
      exact absurd h (fun hc => Except.noConfusion hc)
    | cons c cs =>
      simp only [h2, Except.error.injEq] at h
      rw [← h]
      exact renderParseErr_kind input _

/-- `jsonParse` never throws: the only error the modelled `JSON.parse`
raises is a SyntaxError, and the catch block converts exactly that into
a failure Result. -/
theorem jsonParse_total (input : String) : ∃ r, jsonParse input = .ok r := by
  cases hp : JSON.parse input with
  | ok v => exact ⟨.ok v, by rw [jsonParse, hp]; rfl⟩
  | error e =>
    refine ⟨.err e, ?_⟩
    rw [jsonParse, hp]
    simp [jsonParseCore, JSON.parse_err_kind input e hp]

/-- A `res`-call trace consisting of exactly one call, with status 200
or status 400. -/
def oneResponse (calls : List ResCall) : Prop :=
  ∃ m, calls = [(200, m)] ∨ calls = [(400, m)]

/-- The lesson-3 (isOk-first) handler makes exactly one `res` call
whenever it does not throw. -/
theorem oneResponse003 (body : String) (u : Unit) (calls : List ResCall)
    (h : handleRequest003 body = (.ok u, calls)) : oneResponse calls := by
  obtain ⟨r, hr⟩ := jsonParse_total body
  cases r with
  | err e =>
    have hcomp : handleRequest003 body =
        (Except.ok (), [((400 : Nat), JSValue.str e.message)]) := by
      simp [handleRequest003, hr, liftE, JsM.bind, callRes]
    rw [hcomp] at h
    exact ⟨.str e.message, .inr (congrArg Prod.snd h).symm⟩
  | ok v =>
    cases hg : getProp v "id" with
    | error e2 =>
      have hcomp : handleRequest003 body = (Except.error e2, []) := by
        simp [handleRequest003, hr, hg, liftE, JsM.bind, callRes]
      rw [hcomp] at h
      exact absurd (congrArg Prod.fst h) (fun hc => Except.noConfusion hc)
    | ok idv =>
      have hcomp : handleRequest003 body =
          (Except.ok (), [((200 : Nat), idv)]) := by
        simp [handleRequest003, hr, hg, liftE, JsM.bind, callRes]
      rw [hcomp] at h
      exact ⟨idv, .inl (congrArg Prod.snd h).symm⟩

/-- The lesson-3 alternative (isErr-first) handler makes exactly one
`res` call whenever it does not throw. -/
theorem oneResponse003v2 (body : String) (u : Unit) (calls : List ResCall)
    (h : handleRequest003v2 body = (.ok u, calls)) : oneResponse calls := by
  obtain ⟨r, hr⟩ := jsonParse_total body
  cases r with
  | err e =>
    have hcomp : handleRequest003v2 body =
        (Except.ok (), [((400 : Nat), JSValue.str e.message)]) := by
      simp [handleRequest003v2, hr, liftE, JsM.bind, callRes]
    rw [hcomp] at h
    exact ⟨.str e.message, .inr (congrArg Prod.snd h).symm⟩
  | ok v =>
    cases hg : getProp v "id" with
    | error e2 =>
      have hcomp : handleRequest003v2 body = (Except.error e2, []) := by
        simp [handleRequest003v2, hr, hg, liftE, JsM.bind, callRes]
      rw [hcomp] at h
      exact absurd (congrArg Prod.fst h) (fun hc => Except.noConfusion hc)
    | ok idv =>
      have hcomp : handleRequest003v2 body =
          (Except.ok (), [((200 : Nat), idv)]) := by
        simp [handleRequest003v2, hr, hg, liftE, JsM.bind, callRes]
      rw [hcomp] at h
      exact ⟨idv, .inl (congrArg Prod.snd h).symm⟩

/-- The lesson-4 (map/mapErr) handler makes exactly one `res` call
whenever it does not throw. -/
theorem oneResponse004 (body : String) (u : Unit) (calls : List ResCall)
    (h : handleRequest004 body = (.ok u, calls)) : oneResponse calls := by
  obtain ⟨r, hr⟩ := jsonParse_total body
  cases r with
  | err e =>
    have hcomp : handleRequest004 body =
        (Except.ok (), [((400 : Nat), JSValue.str e.message)]) := by
      simp [handleRequest004, hr, liftE, JsM.bind, JsM.pure, Result.mapM,
        Result.mapErrM, callRes]
    rw [hcomp] at h
    exact ⟨.str e.message, .inr (congrArg Prod.snd h).symm⟩
  | ok v =>
    cases hg : getProp v "id" with
    | error e2 =>
      have hcomp : handleRequest004 body = (Except.error e2, []) := by
        simp [handleRequest004, hr, hg, liftE, JsM.bind, JsM.pure, Result.mapM,
          Result.mapErrM, callRes]
      rw [hcomp] at h
      exact absurd (congrArg Prod.fst h) (fun hc => Except.noConfusion hc)
    | ok idv =>
      have hcomp : handleRequest004 body =
          (Except.ok (), [((200 : Nat), idv)]) := by
        simp [handleRequest004, hr, hg, liftE, JsM.bind, JsM.pure, Result.mapM,
          Result.mapErrM, callRes]
      rw [hcomp] at h
      exact ⟨idv, .inl (congrArg Prod.snd h).symm⟩

/-- The lesson-4.5 (match) handler makes exactly one `res` call
whenever it does not throw. -/
theorem oneResponse0045 (body : String) (u : Unit) (calls : List ResCall)
    (h : handleRequest0045 body = (.ok u, calls)) : oneResponse calls := by
  obtain ⟨r, hr⟩ := jsonParse_total body
  cases r with
  | err e =>
    have hcomp : handleRequest0045 body =
        (Except.ok (), [((400 : Nat), JSValue.str e.message)]) := by
      simp [handleRequest0045, hr, liftE, JsM.bind, Result.matchM, callRes]
    rw [hcomp] at h
    exact ⟨.str e.message, .inr (congrArg Prod.snd h).symm⟩
  | ok v =>
    cases hg : getProp v "id" with
    | error e2 =>
      have hcomp : handleRequest0045 body = (Except.error e2, []) := by
        simp [handleRequest0045, hr, hg, liftE, JsM.bind, Result.matchM, callRes]
      rw [hcomp] at h
      exact absurd (congrArg Prod.fst h) (fun hc => Except.noConfusion hc)
    | ok idv =>
      have hcomp : handleRequest0045 body =
          (Except.ok (), [((200 : Nat), idv)]) := by
        simp [handleRequest0045, hr, hg, liftE, JsM.bind, Result.matchM, callRes]
      rw [hcomp] at h
      exact ⟨idv, .inl (congrArg Prod.snd h).symm⟩

/-- C1: for the input string `'{"id": "123"}'`, the lesson-5 pipeline
(jsonParse, andThen(checkForId), map, mapErr) invokes the res callback
with status 200 and message "123", and nothing else. -/
theorem lesson5_valid_id_yields_200 :
    handleRequest005 "\x7b\x22id\x22: \x22123\x22\x7d" =
      (.ok (), [(200, .str "123")]) := rfl

/-- C2: for the input string `"{}"` (valid JSON, no id field), the
lesson-5 pipeline invokes res with status 400 and message
"No id found", the message of the Error that checkForId wraps in the
failure variant. -/
theorem lesson5_missing_id_yields_400 :
    handleRequest005 "\x7b\x7d" = (.ok (), [(400, .str "No id found")]) ∧
    checkForId (.obj []) = .ok (.err ⟨.plainErr, "No id found"⟩) :=
  ⟨rfl, rfl⟩

/-- C3: jsonParse converts exactly the anticipated SyntaxError into a
failure Result; a parse attempt throwing any other error is re-thrown
and no Result is returned; a successful attempt is wrapped in the
success variant. -/
theorem jsonParse_error_boundary (e : JsError) :
    (e.kind = .syntaxErr → jsonParseCore (.error e) = .ok (.err e)) ∧
    (e.kind ≠ .syntaxErr → jsonParseCore (.error e) = .error e) ∧
    (∀ v, jsonParseCore (.ok v) = .ok (.ok v)) ∧
    (∀ input, jsonParse input = jsonParseCore (JSON.parse input)) := by
  refine ⟨fun h => ?_, fun h => ?_, fun v => rfl, fun input => rfl⟩
  · simp [jsonParseCore, h]
  · simp [jsonParseCore, h]

/-- Witness for C3 at concrete errors: a SyntaxError is caught into the
failure variant; a TypeError is re-thrown. -/
theorem jsonParse_error_boundary_witness :
    jsonParseCore (.error ⟨.syntaxErr, "bad"⟩) = .ok (.err ⟨.syntaxErr, "bad"⟩) ∧
    jsonParseCore (.error ⟨.typeErr, "boom"⟩) = .error ⟨.typeErr, "boom"⟩ :=
  ⟨(jsonParse_error_boundary ⟨.syntaxErr, "bad"⟩).1 rfl,
   (jsonParse_error_boundary ⟨.typeErr, "boom"⟩).2.1 (by decide)⟩

/-- C4: on every input on which it does not throw, each handler
(isOk-first branching, isErr-first branching, map plus mapErr, match)
invokes res exactly once, with status 200 or status 400 — never both
and never neither; and `match` on a success Result runs only the
success callback (the failure callback contributes no effect), and
mirror for a failure Result. -/
theorem handlers_respond_exactly_once :
    (∀ body u calls, handleRequest003 body = (.ok u, calls) → oneResponse calls) ∧
    (∀ body u calls, handleRequest003v2 body = (.ok u, calls) → oneResponse calls) ∧
    (∀ body u calls, handleRequest004 body = (.ok u, calls) → oneResponse calls) ∧
    (∀ body u calls, handleRequest0045 body = (.ok u, calls) → oneResponse calls) ∧
    (∀ (T E R : Type) (v : T) (f : T → JsM R) (g : E → JsM R),
      Result.matchM (Result.ok v) f g = f v) ∧
    (∀ (T E R : Type) (e : E) (f : T → JsM R) (g : E → JsM R),
      Result.matchM (Result.err e) f g = g e) :=
  ⟨oneResponse003, oneResponse003v2, oneResponse004, oneResponse0045,
   fun _ _ _ _ _ _ => rfl, fun _ _ _ _ _ _ => rfl⟩

/-- Witness for C4 at the concrete input of the repository's success
test: each handler responds exactly once on `'{"id": "123"}'`. -/
theorem handlers_respond_exactly_once_witness :
    oneResponse [((200 : Nat), JSValue.str "123")] :=
  handlers_respond_exactly_once.1 "\x7b\x22id\x22: \x22123\x22\x7d" () _ rfl

/-- C5: for the input string `"invalid json"`, the handlers invoke res
with status 400 and the modelled native parser's syntax-error text for
that input, which is exactly the V8 message quoted in the tests. -/
theorem invalid_json_yields_parser_message :
    handleRequest003v2 "invalid json" =
      (.ok (), [(400, .str "Unexpected token 'i', \x22invalid json\x22 is not valid JSON")]) ∧
    handleRequest005 "invalid json" =
      (.ok (), [(400, .str "Unexpected token 'i', \x22invalid json\x22 is not valid JSON")]) ∧
    JSON.parse "invalid json" =
      .error ⟨.syntaxErr, "Unexpected token 'i', \x22invalid json\x22 is not valid JSON"⟩ :=
  ⟨rfl, rfl, rfl⟩

/-- C6: short-circuit law — a failure fed to andThen is returned
unchanged; the callback is never invoked (even an arbitrary effectful
callback contributes no effect, so its call count is zero); and in a
chain of andThen calls the first failure propagates to the end. -/
theorem err_andThen_short_circuits {T T2 T3 E : Type} :
    (∀ (e : E) (f : T → Result T2 E),
      Result.andThen (Result.err e) f = Result.err e) ∧
    (∀ (e : E) (g : T → JsM (Result T2 E)),
      Result.andThenM (Result.err e) g = JsM.pure (Result.err e)) ∧
    (∀ (e : E) (f : T → Result T2 E) (f2 : T2 → Result T3 E),
      Result.andThen (Result.andThen (Result.err e) f) f2 = Result.err e) :=
  ⟨fun _ _ => rfl, fun _ _ => rfl, fun _ _ _ => rfl⟩

/-- C7: identity and pass-through laws — map with the identity leaves a
success unchanged, mapErr with the identity leaves a failure unchanged,
map passes a failure through untransformed, and mapErr passes a success
through untransformed. -/
theorem map_identity_laws {T T2 E E2 : Type} :
    (∀ v : T, Result.map (Result.ok v : Result T E) id = Result.ok v) ∧
    (∀ e : E, Result.mapErr (Result.err e : Result T E) id = Result.err e) ∧
    (∀ (e : E) (f : T → T2), Result.map (Result.err e : Result T E) f = Result.err e) ∧
    (∀ (v : T) (g : E → E2), Result.mapErr (Result.ok v : Result T E) g = Result.ok v) :=
  ⟨fun _ => rfl, fun _ => rfl, fun _ _ => rfl, fun _ _ => rfl⟩

/-- C8: checkForId returns the failure variant carrying
Error("No id found") for every parsed object whose id field is falsy —
absent (undefined), empty string, 0, false or null are all falsy — so a
present-but-falsy id is indistinguishable from a missing one; and the
input `'{"id": ""}'` through the lesson-5 pipeline yields status 400
and message "No id found". -/
theorem checkForId_rejects_falsy_id :
    (∀ fields : List (String × JSValue),
      truthy ((fields.lookup "id").getD .undefined) = false →
      checkForId (.obj fields) = .ok (.err ⟨.plainErr, "No id found"⟩)) ∧
    truthy .undefined = false ∧ truthy (.str "") = false ∧
    truthy (.num 0) = false ∧ truthy (.bool false) = false ∧
    truthy .null = false ∧
    handleRequest005 "\x7b\x22id\x22: \x22\x22\x7d" =
      (.ok (), [(400, .str "No id found")]) := by
  refine ⟨fun fields h => ?_, rfl, by decide, by decide, rfl, rfl, rfl⟩
  simp [checkForId, getProp, h]

/-- Witness for C8: an object with no fields has a falsy (undefined) id
and is rejected with "No id found". -/
theorem checkForId_rejects_falsy_id_witness :
    checkForId (.obj []) = .ok (.err ⟨.plainErr, "No id found"⟩) :=
  checkForId_rejects_falsy_id.1 [] rfl

/-- C9: for the input `"null"` — valid JSON parsing to null — the
lesson-5 handler invokes res zero times: checkForId's property access
`data.id` throws a TypeError that escapes the pipeline. -/
theorem lesson5_null_input_fatal_typeerror :
    handleRequest005 "null" =
      (.error ⟨.typeErr, "Cannot read properties of null (reading 'id')"⟩, []) ∧
    JSON.parse "null" = .ok .null :=
  ⟨rfl, rfl⟩

/-- C10: in the handlers without an id-validation step (lessons 3,
3-alt, 4 and 4.5), for every input that is valid JSON parsing to an
object without an id field (e.g. `"{}"`, which parses to the empty
object), res is invoked with status 200 and an undefined message — a
missing id is a success outcome there, and the message argument is not
a string. -/
theorem early_lessons_missing_id_success :
    (∀ (body : String) (fields : List (String × JSValue)),
      JSON.parse body = .ok (.obj fields) →
      fields.lookup "id" = none →
      handleRequest003 body = (.ok (), [(200, JSValue.undefined)]) ∧
      handleRequest003v2 body = (.ok (), [(200, JSValue.undefined)]) ∧
      handleRequest004 body = (.ok (), [(200, JSValue.undefined)]) ∧
      handleRequest0045 body = (.ok (), [(200, JSValue.undefined)])) ∧
    JSON.parse "\x7b\x7d" = .ok (.obj []) ∧
    (∀ s : String, JSValue.undefined ≠ JSValue.str s) := by
  refine ⟨fun body fields hp hid => ?_, rfl, fun _ h => JSValue.noConfusion h⟩
  have hj : jsonParse body = .ok (.ok (.obj fields)) := by
    rw [jsonParse, hp]; rfl
  have hg : getProp (.obj fields) "id" = .ok .undefined := by
    simp [getProp, hid]
  refine ⟨?_, ?_, ?_, ?_⟩ <;>
    simp [handleRequest003, handleRequest003v2, handleRequest004,
      handleRequest0045, hj, hg, liftE, JsM.bind, JsM.pure, Result.mapM,
      Result.mapErrM, Result.matchM, callRes]

/-- Witness for C10 at the concrete input `"{}"`: it is valid JSON, its
object carries no id field, and all four handlers respond
res(200, undefined). -/
theorem early_lessons_missing_id_success_witness :
    handleRequest003 "\x7b\x7d" = (.ok (), [((200 : Nat), JSValue.undefined)]) ∧
    handleRequest003v2 "\x7b\x7d" = (.ok (), [((200 : Nat), JSValue.undefined)]) ∧
    handleRequest004 "\x7b\x7d" = (.ok (), [((200 : Nat), JSValue.undefined)]) ∧
    handleRequest0045 "\x7b\x7d" = (.ok (), [((200 : Nat), JSValue.undefined)]) :=
  early_lessons_missing_id_success.1 "\x7b\x7d" [] rfl rfl

end NT
